import Mathlib

/-!
Shallow embedding of `opac_ssm_api/client.py` (opac_ssm_api repository).

The client validates caller arguments, builds wire messages and invokes
gRPC stub methods.  We model each public operation as a pure function from
its arguments, an abstract server (the stub responses) and an abstract file
system, to a result (`Except`) together with the ordered list of stub calls
issued.  Python-value arguments that may be of the wrong type (metadata,
ids) are modelled by an inductive `PyArg`; Python truthiness (`if not x`)
by `pyTruthy`.
-/

/-- A JSON-serialisable scalar value, used for metadata dictionary values. -/
inductive JVal where
  | jnull
  | jbool (b : Bool)
  | jint (n : Int)
  | jstr (s : String)
deriving DecidableEq, Repr

/-- A Python value passed where the client expects a string or a dict:
covers strings, ints, bools, None, dicts (string keys, scalar values)
and lists. -/
inductive PyArg where
  | pstr (s : String)
  | pint (n : Int)
  | pbool (b : Bool)
  | pnone
  | pdict (d : List (String × JVal))
  | plist (l : List JVal)
deriving DecidableEq, Repr

/-- Python truthiness of a `PyArg` (`if not x` tests `pyTruthy x = false`). -/
def pyTruthy : PyArg → Bool
  | .pstr s => s != ""
  | .pint n => n != 0
  | .pbool b => b
  | .pnone => false
  | .pdict d => !d.isEmpty
  | .plist l => !l.isEmpty

/-- `isinstance(x, dict)`. -/
def isDict : PyArg → Bool
  | .pdict _ => true
  | _ => false

/-- `isinstance(x, six.string_types)`. -/
def isStr : PyArg → Bool
  | .pstr _ => true
  | _ => false

/-- Escape a character list for JSON output (`json.dumps` escaping of
quote and backslash; the only characters our inputs need). -/
def jsonEscapeChars : List Char → String
  | [] => ""
  | c :: rest =>
      (if c = '"' then "\\\""
       else if c = '\\' then "\\\\"
       else String.singleton c) ++ jsonEscapeChars rest

/-- Escape a string for JSON output. -/
def jsonEscape (s : String) : String :=
  jsonEscapeChars s.data

/-- `json.dumps` of a scalar value. -/
def jsonDumpsVal : JVal → String
  | .jnull => "null"
  | .jbool true => "true"
  | .jbool false => "false"
  | .jint n => toString n
  | .jstr s => "\"" ++ jsonEscape s ++ "\""

/-- `json.dumps` of a string-keyed dict, with Python's default separators
(item separator comma-space, key separator colon-space), keys in insertion
order. -/
def jsonDumpsObj (d : List (String × JVal)) : String :=
  "\x7b" ++
    String.intercalate ", "
      (d.map (fun kv => "\"" ++ jsonEscape kv.1 ++ "\": " ++ jsonDumpsVal kv.2)) ++
  "\x7d"

/-- The metadata field of an outgoing message: either a JSON-encoded string
(`json.dumps(...)`) or a raw Python dict placed unencoded (as
`update_asset` does in its default branch). -/
inductive MetaWire where
  | jsonStr (s : String)
  | rawDict (d : List (String × JVal))
deriving DecidableEq, Repr

/-- The wire message `opac_pb2.Asset(file=..., filename=..., type=...,
metadata=..., bucket=...)` built by `add_asset`. -/
structure AssetMsg where
  file : List Nat
  filename : String
  type : String
  metadata : MetaWire
  bucket : String
deriving DecidableEq, Repr

/-- The partial wire message `opac_pb2.Asset(**update_params)` built by
`update_asset`: only the fields present in `update_params` (metadata is
always present; file/filename, type and bucket only when supplied). -/
structure AssetUpdateMsg where
  metadata : MetaWire
  file : Option (List Nat)
  filename : Option String
  type : Option String
  bucket : Option String
deriving DecidableEq, Repr

/-- The server's response to `get_asset`. -/
structure AssetResp where
  file : List Nat
  filename : String
  type : String
  metadata : MetaWire
  uuid : String
  bucket : String
deriving DecidableEq, Repr

/-- The dict returned by `Client.get_asset`. -/
structure GetAssetResult where
  file : List Nat
  filename : String
  type : String
  metadata : MetaWire
  uuid : String
  bucket : String
deriving DecidableEq, Repr

/-- One remote stub invocation, with the message it carried. -/
inductive StubCall where
  | addAsset (a : AssetMsg)
  | getAsset (id : String)
  | getAssetInfo (id : String)
  | getTaskState (id : String)
  | existsAsset (id : String)
  | updateAsset (a : AssetUpdateMsg)
  | removeAsset (id : String)
  | addBucket (name : String)
  | addUpdate (name newName : String)
  | existsBucket (name : String)
  | removeBucket (name : String)
deriving DecidableEq, Repr

/-- Abstract remote server: the responses the stub methods return. -/
structure Server where
  addAssetId : AssetMsg → String
  getAssetResp : String → AssetResp
  getAssetInfoResp : String → String × String
  taskState : String → String
  existsAsset : String → Bool
  updateAssetId : AssetUpdateMsg → String
  existsBucket : String → Bool
  addBucketId : String → String
  addUpdateId : String → String → String

/-- Errors the client raises locally. -/
inductive PyError where
  | valueError (msg : String)
  | ioError (msg : String)
deriving DecidableEq, Repr

/-- Did an operation raise `ValueError`? -/
def raisedValueError {α : Type} : Except PyError α × List StubCall → Bool
  | (.error (.valueError _), _) => true
  | _ => false

/-- The content source `pfile`: a path string, or a stream-like object
(`hasattr(pfile, "read")`) whose `read()` yields the given bytes. -/
inductive ContentSource where
  | path (p : String)
  | stream (content : List Nat)
deriving DecidableEq, Repr

/-- The local file system: `fs p = some content` iff `os.path.isfile(p)`
and `os.access(p, os.R_OK)` hold, and reading yields `content`. -/
def FileSys : Type := String → Option (List Nat)

/-- `os.path.basename`, character by character: the suffix after the last
slash. -/
def basenameChars : List Char → List Char → List Char
  | [], acc => acc
  | c :: rest, acc =>
      if c = '/' then basenameChars rest []
      else basenameChars rest (acc ++ [c])

/-- `os.path.basename`. -/
def basename (p : String) : String :=
  ⟨basenameChars p.data []⟩

/-- `if x:` on an optional-string parameter (`None` and `""` are falsy). -/
def strOptTruthy (o : Option String) : Option String :=
  match o with
  | some s => if s == "" then none else some s
  | none => none

/-- `Client.add_asset(pfile, filename, filetype, metadata, bucket_name)`.
Returns the result (asset id or raised error) and the stub calls issued. -/
def add_asset (srv : Server) (fs : FileSys) (pfile : ContentSource)
    (filename : String) (filetype : String) (metadata : PyArg)
    (bucket_name : String) : Except PyError String × List StubCall :=
  let metaStep : Except PyError (List (String × JVal)) :=
    if !pyTruthy metadata then .ok []
    else match metadata with
      | .pdict d => .ok d
      | _ => .error (.valueError "Param \"metadata\" must be a Dict or None.")
  match metaStep with
  | .error e => (.error e, [])
  | .ok md =>
    let contentStep : Except PyError (List Nat × String) :=
      match pfile with
      | .stream content =>
          if filename == "" then .error (.valueError "Param \"filename\" is required")
          else .ok (content, filename)
      | .path p =>
          match fs p with
          | some content => .ok (content, basename p)
          | none => .error (.ioError "The file pointed: (%s) is not a file or is unreadable.")
    match contentStep with
    | .error e => (.error e, [])
    | .ok fc =>
        let asset : AssetMsg :=
          ⟨fc.1, fc.2, filetype, .jsonStr (jsonDumpsObj md), bucket_name⟩
        (.ok (srv.addAssetId asset), [.addAsset asset])

/-- `Client.get_asset(id)`. -/
def get_asset (srv : Server) (id : PyArg) :
    Except PyError GetAssetResult × List StubCall :=
  match id with
  | .pstr s =>
      let asset := srv.getAssetResp s
      (.ok ⟨asset.file, asset.filename, asset.type, asset.metadata,
            asset.uuid, asset.bucket⟩,
       [.getAsset s])
  | _ => (.error (.valueError "Param id must be a str|unicode."), [])

/-- `Client.get_asset_info(id)`. -/
def get_asset_info (srv : Server) (id : PyArg) :
    Except PyError (String × String) × List StubCall :=
  match id with
  | .pstr s => (.ok (srv.getAssetInfoResp s), [.getAssetInfo s])
  | _ => (.error (.valueError "Param id must be a str|unicode."), [])

/-- `Client.get_task_state(id)`. -/
def get_task_state (srv : Server) (id : PyArg) :
    Except PyError String × List StubCall :=
  match id with
  | .pstr s => (.ok (srv.taskState s), [.getTaskState s])
  | _ => (.error (.valueError "Param id must be a str|unicode."), [])

/-- `Client.update_asset(uuid, pfile, filename, filetype, metadata,
bucket_name)`.  Returns `ok (some id)` on an update, `ok none` on the
silent no-op when the existence probe fails. -/
def update_asset (srv : Server) (fs : FileSys) (uuid : PyArg)
    (pfile : Option ContentSource) (filename : Option String)
    (filetype : Option String) (metadata : PyArg)
    (bucket_name : Option String) :
    Except PyError (Option String) × List StubCall :=
  match uuid with
  | .pstr u =>
    if srv.existsAsset u then
      let metaStep : Except PyError MetaWire :=
        if !pyTruthy metadata then .ok (.rawDict [])
        else match metadata with
          | .pdict d => .ok (.jsonStr (jsonDumpsObj d))
          | _ => .error (.valueError "Param \"metadata\" must be a Dict or None.")
      match metaStep with
      | .error e => (.error e, [.existsAsset u])
      | .ok mw =>
        let contentStep : Except PyError (Option (List Nat × String)) :=
          match pfile with
          | none => .ok none
          | some (.stream content) =>
              if filename.getD "" == "" then
                .error (.ioError "Param \"filename\" is required")
              else .ok (some (content, filename.getD ""))
          | some (.path p) =>
              match fs p with
              | some content => .ok (some (content, basename p))
              | none => .error (.ioError "The file pointed: (%s) is not a file or is unreadable.")
        match contentStep with
        | .error e => (.error e, [.existsAsset u])
        | .ok fileOpt =>
          let msg : AssetUpdateMsg :=
            ⟨mw, fileOpt.map Prod.fst, fileOpt.map Prod.snd,
             strOptTruthy filetype, strOptTruthy bucket_name⟩
          (.ok (some (srv.updateAssetId msg)), [.existsAsset u, .updateAsset msg])
    else
      (.ok none, [.existsAsset u])
  | _ => (.error (.valueError "Param \"uuid\" must be a str|unicode."), [])

/-- `Client.remove_asset(id)`: `ok (some ())` when removed, `ok none` on
the silent no-op. -/
def remove_asset (srv : Server) (id : PyArg) :
    Except PyError (Option Unit) × List StubCall :=
  match id with
  | .pstr s =>
      if srv.existsAsset s then
        (.ok (some ()), [.existsAsset s, .removeAsset s])
      else (.ok none, [.existsAsset s])
  | _ => (.error (.valueError "Param \"id\" must be a str|unicode."), [])

/-- `Client.add_bucket(name)`. -/
def add_bucket (srv : Server) (name : PyArg) :
    Except PyError String × List StubCall :=
  match name with
  | .pstr s => (.ok (srv.addBucketId s), [.addBucket s])
  | _ => (.error (.valueError "Param name must be a str|unicode."), [])

/-- `Client.update_bucket(name, new_name)`. -/
def update_bucket (srv : Server) (name new_name : PyArg) :
    Except PyError String × List StubCall :=
  match name with
  | .pstr s =>
      match new_name with
      | .pstr ns => (.ok (srv.addUpdateId s ns), [.addUpdate s ns])
      | _ => (.error (.valueError "Param new_name must be a str|unicode."), [])
  | _ => (.error (.valueError "Param name must be a str|unicode."), [])

/-- `Client.remove_bucket(name)`: `ok (some ())` when removed, `ok none`
on the silent no-op. -/
def remove_bucket (srv : Server) (name : PyArg) :
    Except PyError (Option Unit) × List StubCall :=
  match name with
  | .pstr s =>
      if srv.existsBucket s then
        (.ok (some ()), [.existsBucket s, .removeBucket s])
      else (.ok none, [.existsBucket s])
  | _ => (.error (.valueError "Param \"name\" must be a str|unicode."), [])

/-- Module-level constant `HOST_NAME` (the `os.getenv` default). -/
def HOST_NAME : String := "localhost"

/-- Module-level constant `HOST_PORT` (the `os.getenv` default). -/
def HOST_PORT : String := "5000"

/-- Module-level constant `HTTP_PROTO_PORT` (the `os.getenv` default). -/
def HTTP_PROTO_PORT : String := "8001"

/-- Module-level constant `PROTO_PATH` (the `os.getenv` default). -/
def PROTO_PATH : String := "/static/proto/opac.proto"

/-- Modelled from the spec: `utils.generate_pb_files(host, port, path)`
(the `utils` module is not under `src/`) fetches the protocol definition
via HTTP GET from `http://{host}:{port}{path}`; we return that URL. -/
def generate_pb_files (host httpPort protoPath : String) : String :=
  "http://" ++ host ++ ":" ++ httpPort ++ protoPath

/-- `Client.__init__`: given the module-level constants (first three
arguments, normally the environment defaults) and the constructor's
caller-supplied arguments, returns the list of schema-fetch URLs issued
and the channel target.  Mirrors line 39 of the source: the fetch passes
the module constants `HOST_NAME`, `HTTP_PROTO_PORT`, `PROTO_PATH`, not the
constructor's parameters. -/
def clientInit (hostConst httpPortConst protoPathConst : String)
    (host port proto_http_port proto_path : String)
    (update_pb_class : Bool) : List String × String :=
  (if update_pb_class then [generate_pb_files hostConst httpPortConst protoPathConst]
   else [],
   host ++ ":" ++ port)

/-- The default value of `add_asset`'s `bucket_name` parameter
(source line 47). -/
def ADD_ASSET_DEFAULT_BUCKET : String := "UNKNOW"

/-- `add_asset` called without specifying a bucket name (the default
argument applies). -/
def add_asset_default_bucket (srv : Server) (fs : FileSys)
    (pfile : ContentSource) (filename filetype : String) (metadata : PyArg) :
    Except PyError String × List StubCall :=
  add_asset srv fs pfile filename filetype metadata ADD_ASSET_DEFAULT_BUCKET

/-- The dict a valid metadata argument stands for: a truthy dict is kept,
every falsy value is replaced by the empty dict. -/
def metaEncode : PyArg → List (String × JVal)
  | .pdict d => d
  | _ => []

/-- Does a metadata argument pass the clients' validation (falsy, or a
dict)? -/
def metaAccepted (m : PyArg) : Bool :=
  !pyTruthy m || isDict m

/-- Default server response for `get_asset` in test fixtures. -/
def assetRespDflt : AssetResp := ⟨[], "", "", .jsonStr "", "", ""⟩

/-- A server on which every existence probe succeeds. -/
def srvTrue : Server :=
  ⟨fun _ => "id-1", fun _ => assetRespDflt, fun _ => ("", ""), fun _ => "t",
   fun _ => true, fun _ => "id-2", fun _ => true, fun _ => "id-3",
   fun _ _ => "id-4"⟩

/-- A server on which every existence probe fails. -/
def srvFalse : Server :=
  ⟨fun _ => "id-1", fun _ => assetRespDflt, fun _ => ("", ""), fun _ => "t",
   fun _ => false, fun _ => "id-2", fun _ => false, fun _ => "id-3",
   fun _ _ => "id-4"⟩

/-- A file system with no readable files. -/
def fsEmpty : FileSys := fun _ => none

/-- A file system with a single readable file. -/
def fsOne : FileSys :=
  fun p => if p == "/tmp/a/x.bin" then some [7, 8, 9] else none


/-- C1 counterexample: the claim as stated is false on the code.
(a) `add_asset` with metadata `0` (non-mapping, non-null, but falsy) raises
no `ValueError` at all; (b) `update_asset` with metadata `1` raises nothing
when the existence probe fails; (c) when the probe succeeds and `ValueError`
is raised, the probe stub call was already issued beforehand. -/
theorem C1_counterexample :
    raisedValueError (add_asset srvTrue fsEmpty (.stream [1]) "f" "" (.pint 0) "") = false ∧
    raisedValueError (update_asset srvFalse fsEmpty (.pstr "u") none none none (.pint 1) none) = false ∧
    (update_asset srvTrue fsEmpty (.pstr "u") none none none (.pint 1) none).2
      = [.existsAsset "u"] := by
  refine ⟨rfl, rfl, rfl⟩

/-- C1 amended: for truthy non-mapping metadata, `add_asset` raises
`ValueError` before any stub call; `update_asset` issues the existence
probe first and raises the `ValueError` only when the probe succeeds,
returning quietly (no error) when it fails.  Falsy metadata of any type is
accepted as an empty dict. -/
theorem C1_metadata_validation (srv : Server) (fs : FileSys)
    (pfile : ContentSource) (filename filetype bucket uuid : String)
    (metadata : PyArg) (pfileU : Option ContentSource)
    (filenameU filetypeU bucketU : Option String)
    (hTruthy : pyTruthy metadata = true) (hDict : isDict metadata = false) :
    add_asset srv fs pfile filename filetype metadata bucket
      = (.error (.valueError "Param \"metadata\" must be a Dict or None."), []) ∧
    (srv.existsAsset uuid = true →
      update_asset srv fs (.pstr uuid) pfileU filenameU filetypeU metadata bucketU
        = (.error (.valueError "Param \"metadata\" must be a Dict or None."),
           [.existsAsset uuid])) ∧
    (srv.existsAsset uuid = false →
      update_asset srv fs (.pstr uuid) pfileU filenameU filetypeU metadata bucketU
        = (.ok none, [.existsAsset uuid])) := by
  cases metadata <;>
    simp_all [add_asset, update_asset, pyTruthy, isDict]

/-- C1 witness: the amended theorem applied at metadata `1`, a truthy
non-dict value. -/
theorem C1_metadata_validation_witness :
    pyTruthy (.pint 1) = true ∧ isDict (.pint 1) = false ∧
    add_asset srvTrue fsEmpty (.stream [1]) "f" "" (.pint 1) "b"
      = (.error (.valueError "Param \"metadata\" must be a Dict or None."), []) :=
  ⟨rfl, rfl,
   (C1_metadata_validation srvTrue fsEmpty (.stream [1]) "f" "" "b" "u"
      (.pint 1) none none none none rfl rfl).1⟩

/-- C2: on any id/name for which the existence probe fails, `update_asset`,
`remove_asset` and `remove_bucket` issue only the probe itself (no mutating
stub call) and raise no exception, returning a quiet no-result. -/
theorem C2_probe_false_noop (srv : Server) (fs : FileSys)
    (uuid name : String) (pfileU : Option ContentSource)
    (filenameU filetypeU bucketU : Option String) (metadata : PyArg)
    (hAsset : srv.existsAsset uuid = false)
    (hBucket : srv.existsBucket name = false) :
    update_asset srv fs (.pstr uuid) pfileU filenameU filetypeU metadata bucketU
      = (.ok none, [.existsAsset uuid]) ∧
    remove_asset srv (.pstr uuid) = (.ok none, [.existsAsset uuid]) ∧
    remove_bucket srv (.pstr name) = (.ok none, [.existsBucket name]) := by
  refine ⟨?_, ?_, ?_⟩ <;> simp [update_asset, remove_asset, remove_bucket, hAsset, hBucket]

/-- C2 witness: the theorem applied on a server whose probes all fail. -/
theorem C2_probe_false_noop_witness :
    srvFalse.existsAsset "u" = false ∧ srvFalse.existsBucket "b" = false ∧
    remove_asset srvFalse (.pstr "u") = (.ok none, [.existsAsset "u"]) :=
  ⟨rfl, rfl,
   (C2_probe_false_noop srvFalse fsEmpty "u" "b" none none none none .pnone
      rfl rfl).2.1⟩

/-- C3: evaluating client construction at a failing input.  With the
module constants at their defaults and caller-supplied host
`"example.com"`, http port `"9999"` and proto path `"/p.proto"`, a forced
refresh fetches from the URL built out of the module constants
(`http://localhost:8001/static/proto/opac.proto`), not from the URL the
claim requires (`http://example.com:9999/p.proto`). -/
theorem C3_refresh_ignores_caller_args :
    clientInit HOST_NAME HTTP_PROTO_PORT PROTO_PATH
        "example.com" "5000" "9999" "/p.proto" true
      = (["http://localhost:8001/static/proto/opac.proto"], "example.com:5000") ∧
    generate_pb_files "example.com" "9999" "/p.proto"
      = "http://example.com:9999/p.proto" ∧
    "http://localhost:8001/static/proto/opac.proto"
      ≠ "http://example.com:9999/p.proto" := by
  refine ⟨rfl, rfl, by decide⟩

/-- C4 counterexample: `update_asset` given a stream content source and no
filename does NOT raise `ValueError` (it raises `IOError`), while
`add_asset` on the same content source does raise `ValueError`. -/
theorem C4_counterexample :
    raisedValueError
      (update_asset srvTrue fsEmpty (.pstr "u") (some (.stream [1, 2]))
        none none .pnone none) = false ∧
    (update_asset srvTrue fsEmpty (.pstr "u") (some (.stream [1, 2]))
        none none .pnone none).1
      = .error (.ioError "Param \"filename\" is required") ∧
    raisedValueError
      (add_asset srvTrue fsEmpty (.stream [1, 2]) "" "" (.pstr "") "") = true := by
  refine ⟨rfl, rfl, rfl⟩

/-- C4 amended: when the existence probe succeeds and metadata passes
validation, `update_asset` given a stream content source with a missing or
empty filename raises `IOError` (not the `ValueError` `add_asset` raises),
after the probe call. -/
theorem C4_stream_needs_filename (srv : Server) (fs : FileSys)
    (uuid : String) (content : List Nat) (filenameU filetypeU bucketU : Option String)
    (metadata : PyArg)
    (hProbe : srv.existsAsset uuid = true)
    (hFn : filenameU.getD "" = "")
    (hMeta : metaAccepted metadata = true) :
    update_asset srv fs (.pstr uuid) (some (.stream content))
        filenameU filetypeU metadata bucketU
      = (.error (.ioError "Param \"filename\" is required"), [.existsAsset uuid]) := by
  cases metadata <;>
    simp_all [update_asset, metaAccepted, pyTruthy, isDict]
  rename_i d
  cases d <;> simp

/-- C4 witness: the amended theorem at a concrete input. -/
theorem C4_stream_needs_filename_witness :
    srvTrue.existsAsset "u" = true ∧
    update_asset srvTrue fsEmpty (.pstr "u") (some (.stream [1, 2]))
        none none .pnone none
      = (.error (.ioError "Param \"filename\" is required"), [.existsAsset "u"]) :=
  ⟨rfl, C4_stream_needs_filename srvTrue fsEmpty "u" [1, 2] none none none
     .pnone rfl rfl rfl⟩

/-- C5: every operation taking an id/name rejects a non-string argument
with `ValueError` before issuing any stub call (`update_bucket` rejects a
non-string in either position). -/
theorem C5_nonstring_rejected (srv : Server) (fs : FileSys) (id : PyArg)
    (pfileU : Option ContentSource) (filenameU filetypeU bucketU : Option String)
    (metadata : PyArg) (nm : String)
    (h : isStr id = false) :
    get_asset srv id
      = (.error (.valueError "Param id must be a str|unicode."), []) ∧
    get_asset_info srv id
      = (.error (.valueError "Param id must be a str|unicode."), []) ∧
    get_task_state srv id
      = (.error (.valueError "Param id must be a str|unicode."), []) ∧
    update_asset srv fs id pfileU filenameU filetypeU metadata bucketU
      = (.error (.valueError "Param \"uuid\" must be a str|unicode."), []) ∧
    remove_asset srv id
      = (.error (.valueError "Param \"id\" must be a str|unicode."), []) ∧
    add_bucket srv id
      = (.error (.valueError "Param name must be a str|unicode."), []) ∧
    update_bucket srv id (.pstr nm)
      = (.error (.valueError "Param name must be a str|unicode."), []) ∧
    update_bucket srv (.pstr nm) id
      = (.error (.valueError "Param new_name must be a str|unicode."), []) ∧
    remove_bucket srv id
      = (.error (.valueError "Param \"name\" must be a str|unicode."), []) := by
  cases id <;>
    simp_all [isStr, get_asset, get_asset_info, get_task_state, update_asset,
      remove_asset, add_bucket, update_bucket, remove_bucket]

/-- C5 witness: the theorem applied at the non-string id `3`. -/
theorem C5_nonstring_rejected_witness :
    isStr (.pint 3) = false ∧
    get_asset srvTrue (.pint 3)
      = (.error (.valueError "Param id must be a str|unicode."), []) :=
  ⟨rfl,
   (C5_nonstring_rejected srvTrue fsEmpty (.pint 3) none none none none
      .pnone "b" rfl).1⟩

/-- C6: `add_asset` on a stream content source: with a non-empty filename
it succeeds and the wire message's file field is exactly the bytes read
from the stream (forwarded unchanged); with an empty filename it raises
`ValueError` before any stub call. -/
theorem C6_stream_rules (srv : Server) (fs : FileSys) (content : List Nat)
    (filename filetype bucket : String) (metadata : PyArg)
    (hMeta : metaAccepted metadata = true) :
    (filename ≠ "" →
      add_asset srv fs (.stream content) filename filetype metadata bucket
        = (.ok (srv.addAssetId
              ⟨content, filename, filetype,
               .jsonStr (jsonDumpsObj (metaEncode metadata)), bucket⟩),
           [.addAsset
              ⟨content, filename, filetype,
               .jsonStr (jsonDumpsObj (metaEncode metadata)), bucket⟩])) ∧
    (filename = "" →
      add_asset srv fs (.stream content) filename filetype metadata bucket
        = (.error (.valueError "Param \"filename\" is required"), [])) := by
  cases metadata <;>
    simp_all [add_asset, metaAccepted, pyTruthy, isDict, metaEncode] <;>
    rename_i d <;> cases d <;> simp_all [jsonDumpsObj]

/-- C6 witness: the theorem applied at a concrete stream, once with a
filename and once without. -/
theorem C6_stream_rules_witness :
    metaAccepted (.pdict [("a", .jint 1)]) = true ∧
    add_asset srvTrue fsEmpty (.stream [10, 20]) "f.bin" "t"
        (.pdict [("a", .jint 1)]) "b"
      = (.ok "id-1",
         [.addAsset ⟨[10, 20], "f.bin", "t", .jsonStr "\x7b\"a\": 1\x7d", "b"⟩]) ∧
    add_asset srvTrue fsEmpty (.stream [10, 20]) "" "t"
        (.pdict [("a", .jint 1)]) "b"
      = (.error (.valueError "Param \"filename\" is required"), []) := by
  have h := C6_stream_rules srvTrue fsEmpty [10, 20] "f.bin" "t" "b"
    (.pdict [("a", .jint 1)]) rfl
  have h2 := C6_stream_rules srvTrue fsEmpty [10, 20] "" "t" "b"
    (.pdict [("a", .jint 1)]) rfl
  refine ⟨rfl, ?_, h2.2 rfl⟩
  have h3 := h.1 (by decide)
  rw [h3]
  rfl

/-- The wire message produced by the round-trip `add_asset` call of C7. -/
def rtWire : AssetMsg :=
  ⟨[104, 105], "hi.txt", "text", .jsonStr (jsonDumpsObj [("a", .jint 1)]), "pics"⟩

/-- A server that stores the C7 asset and echoes its wire message back on
`get_asset`. -/
def rtServer : Server :=
  ⟨fun _ => "uuid-1",
   fun i =>
     if i == "uuid-1" then
       ⟨rtWire.file, rtWire.filename, rtWire.type, rtWire.metadata,
        "uuid-1", rtWire.bucket⟩
     else assetRespDflt,
   fun _ => ("", ""), fun _ => "t", fun _ => true, fun _ => "id-2",
   fun _ => true, fun _ => "id-3", fun _ _ => "id-4"⟩

/-- C7: round-trip.  Adding an asset with metadata dict `a ↦ 1` puts the
JSON string `'\x7b"a": 1\x7d'` on the wire; fetching it from a server that
echoes the stored message returns the metadata field as exactly that
still-encoded JSON string (never decoded). -/
theorem C7_metadata_roundtrip :
    add_asset rtServer fsEmpty (.stream [104, 105]) "hi.txt" "text"
        (.pdict [("a", .jint 1)]) "pics"
      = (.ok "uuid-1", [.addAsset rtWire]) ∧
    (get_asset rtServer (.pstr "uuid-1")).1
      = .ok ⟨[104, 105], "hi.txt", "text", .jsonStr "\x7b\"a\": 1\x7d",
             "uuid-1", "pics"⟩ := by
  refine ⟨rfl, rfl⟩

/-- C8 counterexample: an `add_asset` call that does not specify a bucket
name puts the string `"UNKNOW"` — not `"UNKNOWN"` — into the wire
message's bucket field. -/
theorem C8_counterexample :
    (add_asset_default_bucket srvTrue fsOne (.path "/tmp/a/x.bin") "" ""
        (.pstr "")).2
      = [.addAsset ⟨[7, 8, 9], "x.bin", "", .jsonStr "\x7b\x7d", "UNKNOW"⟩] ∧
    ADD_ASSET_DEFAULT_BUCKET ≠ "UNKNOWN" := by
  refine ⟨rfl, by decide⟩

/-- C8 amended: for every `add_asset` call that does not specify a bucket
name (so the parameter default applies) and that succeeds, the bucket
field placed in the wire message is the sentinel string `"UNKNOW"` (the
source's default, one letter short of the spec's `"UNKNOWN"`). -/
theorem C8_default_bucket (srv : Server) (fs : FileSys) (p : String)
    (content : List Nat) (filename filetype : String) (metadata : PyArg)
    (hFs : fs p = some content) (hMeta : metaAccepted metadata = true) :
    add_asset_default_bucket srv fs (.path p) filename filetype metadata
      = (.ok (srv.addAssetId
            ⟨content, basename p, filetype,
             .jsonStr (jsonDumpsObj (metaEncode metadata)), "UNKNOW"⟩),
         [.addAsset
            ⟨content, basename p, filetype,
             .jsonStr (jsonDumpsObj (metaEncode metadata)), "UNKNOW"⟩]) := by
  cases metadata <;>
    simp_all [add_asset_default_bucket, add_asset, ADD_ASSET_DEFAULT_BUCKET,
      metaAccepted, pyTruthy, isDict, metaEncode]
  rename_i d
  cases d <;> simp_all [jsonDumpsObj]

/-- C8 witness: the amended theorem at a concrete readable path. -/
theorem C8_default_bucket_witness :
    fsOne "/tmp/a/x.bin" = some [7, 8, 9] ∧
    metaAccepted (.pstr "") = true ∧
    add_asset_default_bucket srvTrue fsOne (.path "/tmp/a/x.bin") "zzz" ""
        (.pstr "")
      = (.ok "id-1",
         [.addAsset ⟨[7, 8, 9], "x.bin", "", .jsonStr "\x7b\x7d", "UNKNOW"⟩]) := by
  refine ⟨rfl, rfl, ?_⟩
  have h := C8_default_bucket srvTrue fsOne "/tmp/a/x.bin" [7, 8, 9] "zzz" ""
    (.pstr "") rfl rfl
  rw [h]
  rfl

/-- C9: when the content source is an existing readable path, the filename
field sent in the wire message is the basename of that path, whatever
filename argument the caller supplied (it is overwritten). -/
theorem C9_path_filename_basename (srv : Server) (fs : FileSys) (p : String)
    (content : List Nat) (filename filetype bucket : String) (metadata : PyArg)
    (hFs : fs p = some content) (hMeta : metaAccepted metadata = true) :
    add_asset srv fs (.path p) filename filetype metadata bucket
      = (.ok (srv.addAssetId
            ⟨content, basename p, filetype,
             .jsonStr (jsonDumpsObj (metaEncode metadata)), bucket⟩),
         [.addAsset
            ⟨content, basename p, filetype,
             .jsonStr (jsonDumpsObj (metaEncode metadata)), bucket⟩]) := by
  cases metadata <;>
    simp_all [add_asset, metaAccepted, pyTruthy, isDict, metaEncode]
  rename_i d
  cases d <;> simp_all [jsonDumpsObj]

/-- C9 witness: a caller-supplied filename `"mine.txt"` is ignored; the
wire filename is `basename "/tmp/a/x.bin" = "x.bin"`. -/
theorem C9_path_filename_basename_witness :
    fsOne "/tmp/a/x.bin" = some [7, 8, 9] ∧
    metaAccepted .pnone = true ∧
    add_asset srvTrue fsOne (.path "/tmp/a/x.bin") "mine.txt" "t" .pnone "b"
      = (.ok "id-1",
         [.addAsset ⟨[7, 8, 9], "x.bin", "t", .jsonStr "\x7b\x7d", "b"⟩]) ∧
    basename "/tmp/a/x.bin" ≠ "mine.txt" := by
  refine ⟨rfl, rfl, ?_, by decide⟩
  have h := C9_path_filename_basename srvTrue fsOne "/tmp/a/x.bin" [7, 8, 9]
    "mine.txt" "t" "b" .pnone rfl rfl
  rw [h]
  rfl

/-- C10: in `update_asset`, a falsy metadata argument makes the outgoing
message's metadata field the raw empty dict (`MetaWire.rawDict []`), not a
JSON-encoded string; a truthy dict is JSON-encoded; and a raw dict is
never equal to a JSON string value. -/
theorem C10_update_metadata_raw (srv : Server) (fs : FileSys) (uuid : String)
    (filetypeU bucketU : Option String) (d : List (String × JVal))
    (hProbe : srv.existsAsset uuid = true) (hD : d ≠ []) :
    (∀ metadata : PyArg, pyTruthy metadata = false →
        update_asset srv fs (.pstr uuid) none none filetypeU metadata bucketU
          = (.ok (some (srv.updateAssetId
                ⟨.rawDict [], none, none, strOptTruthy filetypeU,
                 strOptTruthy bucketU⟩)),
             [.existsAsset uuid,
              .updateAsset ⟨.rawDict [], none, none, strOptTruthy filetypeU,
                 strOptTruthy bucketU⟩])) ∧
    (update_asset srv fs (.pstr uuid) none none filetypeU (.pdict d) bucketU
      = (.ok (some (srv.updateAssetId
            ⟨.jsonStr (jsonDumpsObj d), none, none, strOptTruthy filetypeU,
             strOptTruthy bucketU⟩)),
         [.existsAsset uuid,
          .updateAsset ⟨.jsonStr (jsonDumpsObj d), none, none,
             strOptTruthy filetypeU, strOptTruthy bucketU⟩])) ∧
    (∀ s : String, (MetaWire.rawDict [] : MetaWire) ≠ .jsonStr s) := by
  refine ⟨?_, ?_, fun s h => by cases h⟩
  · intro metadata hFalsy
    cases metadata <;> simp_all [update_asset, pyTruthy]
  · cases d <;> simp_all [update_asset, pyTruthy]

/-- C10 witness: at a concrete uuid, falsy metadata (`None`) goes out as
the raw empty dict and the dict `a ↦ 1` goes out JSON-encoded. -/
theorem C10_update_metadata_raw_witness :
    srvTrue.existsAsset "u" = true ∧ ([("a", JVal.jint 1)] ≠ ([] : List (String × JVal))) ∧
    update_asset srvTrue fsEmpty (.pstr "u") none none none .pnone none
      = (.ok (some "id-2"),
         [.existsAsset "u", .updateAsset ⟨.rawDict [], none, none, none, none⟩]) ∧
    update_asset srvTrue fsEmpty (.pstr "u") none none none
        (.pdict [("a", .jint 1)]) none
      = (.ok (some "id-2"),
         [.existsAsset "u",
          .updateAsset ⟨.jsonStr "\x7b\"a\": 1\x7d", none, none, none, none⟩]) := by
  have h := C10_update_metadata_raw srvTrue fsEmpty "u" none none
    [("a", .jint 1)] rfl (by decide)
  refine ⟨rfl, by decide, ?_, ?_⟩
  · have h1 := h.1 .pnone rfl
    rw [h1]
    rfl
  · have h2 := h.2.1
    rw [h2]
    rfl
